import Mathlib

/-!
Shallow embedding of the GrowFolio core logic (intake validation, risk
scoring, trader-type classification, and recommendation normalization)
together with theorems settling the specification claims.

Numbers are modelled as rationals (`ℚ`): JavaScript numeric inputs in the
claims are arbitrary finite numbers, and every arithmetic step of the
source (comparison, min/max, division by a floored denominator, rounding)
is exact on finite values.
-/

/-! ## Definitions -/

/-- JavaScript helper `num(x)` from the source: coerces a stored answer to
a number, collapsing missing / non-numeric values to `0`. -/
def num (x : Option ℚ) : ℚ := x.getD 0

/-- The answer keys consumed by the risk engine and the classifier.
A field holds `none` when the key is absent from the stored answer map. -/
structure AnswerSet where
  income : Option ℚ := none
  total_expenses : Option ℚ := none
  savings : Option ℚ := none
  age : Option ℚ := none
  dependents : Option ℚ := none
  risk_scale : Option ℚ := none
  trader_type : Option String := none
  primary_goal : Option String := none
deriving Repr, DecidableEq

/-- JavaScript `Math.round` on a finite number: round half towards
positive infinity, i.e. `⌊x + 1/2⌋`. -/
def jsRound (x : ℚ) : ℤ := ⌊x + 1/2⌋

/-- Clamp a rational into `[lo, hi]`. -/
def clampQ (lo hi x : ℚ) : ℚ := max lo (min hi x)

/-- `investable = Math.max(0, income - expenses)` in `computeRisk`. -/
def investableOf (a : AnswerSet) : ℚ :=
  max 0 (num a.income - num a.total_expenses)

/-- The runway denominator `Math.max(1, expenses || 1)`: the JavaScript
`expenses || 1` yields `1` exactly when `expenses` is `0` (the only falsy
finite number after `num`). -/
def runwayDenom (expenses : ℚ) : ℚ :=
  max 1 (if expenses = 0 then 1 else expenses)

/-- `runway = savings / Math.max(1, expenses || 1)` in `computeRisk`. -/
def runwayOf (a : AnswerSet) : ℚ :=
  num a.savings / runwayDenom (num a.total_expenses)

/-- The sum of the additive risk adjustments of `computeRisk`, in source
order.  The sequential `risk += …` / `risk -= …` statements of the source
add exactly these summands to the baseline of 5. -/
def riskAdjustments (a : AnswerSet) : ℚ :=
  let income := num a.income
  let expenses := num a.total_expenses
  let dependents := num a.dependents
  let age := num a.age
  let riskScale := num a.risk_scale
  let runway := runwayOf a
  (if expenses * 1.25 < income then 1 else 0)
    + (if expenses * 1.5 < income then 1 else 0)
    + (if income * 0.7 < expenses then -1 else 0)
    + (if income * 0.9 < expenses then -1 else 0)
    + (if 1 ≤ dependents then -(min 2 dependents) else 0)
    + (if age ≤ 25 then 1 else 0)
    + (if 55 ≤ age then -1 else 0)
    + (if 4 ≤ riskScale then 1 else 0)
    + (if riskScale ≤ 2 then -1 else 0)
    + (if 6 ≤ runway then 1 else if runway < 3 then -2 else 0)

/-- The raw risk value before rounding and clamping: baseline 5 plus the
adjustments. -/
def riskRaw (a : AnswerSet) : ℚ := 5 + riskAdjustments a

/-- The fixed allocation-cap table `caps` of `computeRisk`, with the
source's `?? 0.35` default for any key outside 1..10. -/
def capFor (s : ℤ) : ℚ :=
  if s = 1 then 0.1 else if s = 2 then 0.15 else if s = 3 then 0.2
  else if s = 4 then 0.25 else if s = 5 then 0.35 else if s = 6 then 0.45
  else if s = 7 then 0.55 else if s = 8 then 0.65 else if s = 9 then 0.75
  else if s = 10 then 0.85 else 0.35

/-- The advisory warnings `computeRisk` can push. `lowEmergencyFund`
carries the runway value interpolated into the message text. -/
inductive RiskWarning
  | pauseInvesting
  | lowEmergencyFund (runwayMonths : ℚ)
deriving Repr, DecidableEq

/-- The output of `computeRisk`. -/
structure RiskProfile where
  score : ℤ
  investableMonthly : ℚ
  suggestedCap : ℚ
  warnings : List RiskWarning
deriving Repr, DecidableEq

/-- `computeRisk(answers)`: the score is
`Math.max(1, Math.min(10, Math.round(risk)))` for the sequentially
accumulated `risk`, the cap is looked up from the fixed table, and the
suggested allocation is `investable * cap`. -/
def computeRisk (a : AnswerSet) : RiskProfile :=
  let investable := investableOf a
  let runway := runwayOf a
  let score := max 1 (min 10 (jsRound (riskRaw a)))
  let cap := capFor score
  { score := score
    investableMonthly := investable
    suggestedCap := investable * cap
    warnings :=
      (if investable ≤ 0 then [RiskWarning.pauseInvesting] else [])
        ++ (if runway < 3 then [RiskWarning.lowEmergencyFund runway] else []) }

/-- Scenario A answers:
`{income:5000, total_expenses:3000, savings:10000, age:30, dependents:0, risk_scale:3}`. -/
def answersA : AnswerSet :=
  { income := some 5000, total_expenses := some 3000, savings := some 10000,
    age := some 30, dependents := some 0, risk_scale := some 3 }

/-- Witness answers for C3: expenses stored as 0. -/
def answersZeroExp : AnswerSet :=
  { income := some 2000, total_expenses := some 0, savings := some 4500 }

/-- The closed set of recommendation tracks produced by the classifier. -/
inductive TraderType
  | day_trader
  | retirement_investor
  | both
deriving Repr, DecidableEq

/-- `determineTraderType(answers)`: explicit trader-type answer first,
then the primary-goal fallback, then the default. -/
def determineTraderType (a : AnswerSet) : TraderType :=
  if a.trader_type = some "Day Trader" then .day_trader
  else if a.trader_type = some "Retirement Investor" then .retirement_investor
  else if a.trader_type = some "Both" then .both
  else if a.primary_goal = some "Short-term trading" then .day_trader
  else if a.primary_goal = some "Retirement" then .retirement_investor
  else .retirement_investor

/-- A stored trader-type answer the classifier recognizes explicitly. -/
def recognizedTraderAnswer (t : Option String) : Bool :=
  t = some "Day Trader" || t = some "Retirement Investor" || t = some "Both"

/-- A stored primary-goal answer the classifier recognizes as a fallback. -/
def recognizedGoalAnswer (g : Option String) : Bool :=
  g = some "Short-term trading" || g = some "Retirement"

/-- Witness answers for C4: explicit "Both" with a retirement goal. -/
def answersBoth : AnswerSet :=
  { trader_type := some "Both", primary_goal := some "Retirement" }

/-- JavaScript `s.toUpperCase()` (character-wise, as on the ASCII action
strings of the source). -/
def toUpperStr (s : String) : String := ⟨s.data.map Char.toUpper⟩

/-- JavaScript `s.split(' ')[0]`: the leading run of characters before the
first space (empty when the string starts with a space). -/
def headToken (s : String) : String :=
  ⟨s.data.takeWhile (fun c => ¬ c = ' ')⟩

/-- JavaScript `s.replace(/[()]/g, '')`: delete every parenthesis
character. -/
def stripParens (s : String) : String :=
  ⟨s.data.filter (fun c => ¬ (c = '(' ∨ c = ')'))⟩

/-- One entry of the ML prediction-list payload used by the day-trader
track. -/
structure Prediction where
  ticker : String
  action : String
  confidence : ℚ
deriving Repr, DecidableEq

/-- The `actionExplanation` clause of `renderDayTraderContent`: a static
human-readable sentence per action, empty for unknown actions. -/
def actionClause (action : String) : String :=
  if action = "buy" then
    "Consider opening a new position or adding to an existing one."
  else if action = "sell" then
    "Consider taking profits or reducing your position."
  else if action = "hold" then
    "Maintain your current position - no immediate action needed."
  else ""

/-- The fallback rationale `pred.action.toUpperCase() + " signal based on
ML analysis"`. -/
def fallbackSignal (p : Prediction) : String :=
  toUpperStr p.action ++ " signal based on ML analysis"

/-- `rationale = (explanation || fallback) + " " + actionExplanation`:
an empty explanation (provider failed, unavailable, or returned nothing)
is falsy and falls back. -/
def dayRationale (explanation : String) (p : Prediction) : String :=
  (if explanation = "" then fallbackSignal p else explanation)
    ++ " " ++ actionClause p.action

/-- One rendered card of the day-trader track: either a signal card built
from a prediction, or the synthetic disclaimer card appended after the
signal cards. -/
inductive DayCard
  | signal (ticker action : String) (confidence : ℚ) (rationale : String)
  | disclaimer
deriving Repr, DecidableEq

/-- Build the signal card of one prediction given its (possibly empty)
enrichment explanation. -/
def mkDayCard (explanation : String) (p : Prediction) : DayCard :=
  .signal p.ticker p.action p.confidence (dayRationale explanation p)

/-- `explain(...)` as seen by the normalizer: `none` models a failed,
timed-out, or unreachable provider call; the source catches every failure
and returns the empty string. -/
def explainFallback (r : Option String) : String := r.getD ""

/-- `renderDayTraderContent` item construction: when the `predictions`
field is present (JavaScript truthiness of an array, which holds even for
an empty array), map each prediction in order to a signal card and append
the disclaimer card; when the field is absent, no cards are produced. -/
def renderDayTraderCards (provider : Prediction → Option String) :
    Option (List Prediction) → List DayCard
  | none => []
  | some preds =>
      preds.map (fun p => mkDayCard (explainFallback (provider p)) p)
        ++ [DayCard.disclaimer]

/-- The enrichment provider of Scenario D: unavailable for every item. -/
def noProvider : Prediction → Option String := fun _ => none

/-- The single prediction of Scenario D. -/
def predictionD : Prediction :=
  { ticker := "AAPL", action := "sell", confidence := 70 }

/-- One asset-class bucket of the legacy flat-allocation payload. -/
structure AllocationBucket where
  assetClass : String
  percentage : ℚ
  recommendations : List String
deriving Repr, DecidableEq

/-- `rec.split(' ')[0].replace(/[()]/g, '')`: the leading token with all
parenthesis characters deleted. -/
def extractTicker (rec : String) : String :=
  stripParens (headToken rec)

/-- One normalized item of the legacy flat-allocation track. -/
structure LegacyRecItem where
  ticker : String
  name : String
  assetClass : String
  percentage : ℚ
deriving Repr, DecidableEq

/-- `renderRetirementInvestorContent` legacy branch, one bucket: the
aggregate percentage is split evenly (`data.percentage /
data.recommendations.length`) and the ticker parsed from each
recommendation string, preserving input order. -/
def normalizeBucket (b : AllocationBucket) : List LegacyRecItem :=
  b.recommendations.map fun rec =>
    { ticker := extractTicker rec
      name := rec
      assetClass := b.assetClass
      percentage := b.percentage / (b.recommendations.length : ℚ) }

/-- All legacy items, buckets in payload order. -/
def collectLegacyRecs (allocation : List AllocationBucket) : List LegacyRecItem :=
  allocation.flatMap normalizeBucket

/-- The Scenario C bucket. -/
def bucketC : AllocationBucket :=
  { assetClass := "stocks", percentage := 60,
    recommendations := ["VTI (Total Market)", "VXUS (Intl)"] }

/-- One weighted holding of the narrated-portfolio payload (weight is a
0–1 fraction). -/
structure PortfolioHolding where
  asset : String
  weight : ℚ
  name : String
  notes : String
deriving Repr, DecidableEq

/-- One rendered card of the narrated-portfolio track; `percent` is the
0–100 percentage `weight * 100` shown to one decimal place. -/
structure PortfolioCard where
  asset : String
  percent : ℚ
  name : String
  notes : String
deriving Repr, DecidableEq

/-- `renderRetirementInvestorContent` narrated branch: one card per
holding in input order, with `(item.weight * 100)` as the displayed
percentage. -/
def normalizePortfolio (portfolio : List PortfolioHolding) : List PortfolioCard :=
  portfolio.map fun h =>
    { asset := h.asset, percent := h.weight * 100, name := h.name, notes := h.notes }

/-- Witness portfolio for C7: two holdings with weights summing to 1. -/
def portfolioW : List PortfolioHolding :=
  [ { asset := "VTI", weight := 3/5, name := "Total Market", notes := "core" },
    { asset := "BND", weight := 2/5, name := "Bonds", notes := "ballast" } ]

/-- Placeholder prediction used only as the `getD` default when indexing
the batch; every read in the theorems is in range. -/
def defaultPrediction : Prediction := { ticker := "", action := "", confidence := 0 }

/-- A results array of `n` slots, written as the per-item enrichment
tasks settle: the task for input index `i` stores its result into slot
`i` when it completes, in completion order `order`. -/
def settleSlots (res : ℕ → String) (order : List ℕ) (n : ℕ) :
    List (Option String) :=
  order.foldl (fun acc i => acc.set i (some (res i))) (List.replicate n none)

/-- The join point of `Promise.all`: the assembled list, read out of the
settled slots in input order only after the whole schedule has run. -/
def promiseAll (res : ℕ → String) (order : List ℕ) (n : ℕ) : List String :=
  (settleSlots res order n).map (fun s => s.getD "")

/-- The enrichment result for the `i`-th prediction of the batch (empty
string when the provider call failed). -/
def predExplanation (provider : Prediction → Option String)
    (preds : List Prediction) (i : ℕ) : String :=
  explainFallback (provider (preds.getD i defaultPrediction))

/-- `renderDayTraderContent` with the concurrent enrichment step made
explicit: all per-item explanation tasks settle (in arbitrary completion
order `order`), and only then the cards are assembled in input order. -/
def renderDayTraderScheduled (provider : Prediction → Option String)
    (preds : List Prediction) (order : List ℕ) : List DayCard :=
  List.zipWith (fun p e => mkDayCard e p) preds
      (promiseAll (predExplanation provider preds) order preds.length)
    ++ [DayCard.disclaimer]

/-- Witness provider for C8: the call for "MSFT" fails, the rest succeed. -/
def flakyProvider : Prediction → Option String :=
  fun p => if p.ticker = "MSFT" then none else some "Custom insight."

/-- Witness batch for C8. -/
def predsW : List Prediction :=
  [ { ticker := "AAPL", action := "buy", confidence := 80 },
    { ticker := "MSFT", action := "hold", confidence := 60 } ]

/-- Question control types of the intake slides. -/
inductive QuestionKind
  | multipleChoice (options : List String)
  | dropdown (options : List String)
  | intNumber (lo hi : Option ℚ)
  | floatNumber (lo hi : Option ℚ)
  | slider (lo hi : Option ℚ)
  | scale (lo hi : Option ℚ)
  | categories (cats : List String)
deriving Repr, DecidableEq

/-- One question definition of a slide. -/
structure Question where
  key : String
  kind : QuestionKind
deriving Repr, DecidableEq

/-- The raw state of one rendered input control when Next is pressed.
For number inputs, `numberVal` carries `num(el.value)`: non-numeric text
already collapses to 0 there, so the "Please enter a valid number" guard
of the source can never fire. -/
inductive FieldInput
  | selection (value : String)
  | emptyNumber
  | numberVal (v : ℚ)
  | catVals (vals : List (String × ℚ))
deriving Repr, DecidableEq

/-- A value stored into the `answers` map by validation. -/
inductive AnswerValue
  | numA (v : ℚ)
  | strA (s : String)
  | catA (vals : List (String × ℚ))
deriving Repr, DecidableEq

/-- The per-category loop of `validateAndCollect`: fails at the first
negative entry, else collects the category→value map in order. -/
def collectCategories :
    List (String × ℚ) → Except String (List (String × ℚ))
  | [] => .ok []
  | (c, v) :: rest =>
      if v < 0 then .error "Values can’t be negative."
      else
        match collectCategories rest with
        | .error m => .error m
        | .ok obj => .ok ((c, v) :: obj)

/-- Category-map validation: reject negative entries (first encountered),
require at least one truthy (nonzero) entry, and return the collected map
together with its total. -/
def validateCategories (vals : List (String × ℚ)) :
    Except String (List (String × ℚ) × ℚ) :=
  match collectCategories vals with
  | .error m => .error m
  | .ok obj =>
      if obj.any (fun cv => decide (cv.2 ≠ 0)) then
        .ok (obj, (obj.map (fun cv => cv.2)).sum)
      else .error "Enter at least one category amount."

/-- `def.min !== undefined && v < def.min`. -/
def belowMin (lo : Option ℚ) (v : ℚ) : Bool :=
  match lo with
  | some m => decide (v < m)
  | none => false

/-- `def.max !== undefined && v > def.max`. -/
def aboveMax (hi : Option ℚ) (v : ℚ) : Bool :=
  match hi with
  | some m => decide (m < v)
  | none => false

/-- The interpolated minimum-violation message of the source. -/
def minMsg (m : ℚ) : String := "Value must be ≥ " ++ toString m ++ "."

/-- The interpolated maximum-violation message of the source. -/
def maxMsg (m : ℚ) : String := "Value must be ≤ " ++ toString m ++ "."

/-- The interpolated out-of-range message for sliders and scales. -/
def rangeMsg (mn mx : ℚ) : String :=
  "Value must be between " ++ toString mn ++ " and " ++ toString mx ++ "."

/-- Validation of one rendered field against its question definition:
either the source's failure message, or the key/value pairs stored into
`answers` (for a category map this includes the synthesized
`total_expenses`).  A field whose control shape does not match its
definition is skipped, as the source's `querySelector` guard does. -/
def validateField (q : Question) (inp : FieldInput) :
    Except String (List (String × AnswerValue)) :=
  match q.kind, inp with
  | .categories _, .catVals vals =>
      match validateCategories vals with
      | .error m => .error m
      | .ok (obj, total) =>
          .ok [(q.key, .catA obj), ("total_expenses", .numA total)]
  | .multipleChoice _, .selection v =>
      if v = "" then .error "Please select an option."
      else .ok [(q.key, .strA v)]
  | .dropdown _, .selection v =>
      if v = "" then .error "Please select an option."
      else .ok [(q.key, .strA v)]
  | .intNumber _ _, .emptyNumber => .error "This field is required."
  | .floatNumber _ _, .emptyNumber => .error "This field is required."
  | .intNumber lo hi, .numberVal v =>
      if belowMin lo v then .error (minMsg (lo.getD 0))
      else if aboveMax hi v then .error (maxMsg (hi.getD 0))
      else if v.den = 1 then .ok [(q.key, .numA v)]
      else .error "Please enter a whole number."
  | .floatNumber lo hi, .numberVal v =>
      if belowMin lo v then .error (minMsg (lo.getD 0))
      else if aboveMax hi v then .error (maxMsg (hi.getD 0))
      else .ok [(q.key, .numA v)]
  | .slider lo hi, .numberVal v =>
      if v < lo.getD 1 ∨ hi.getD 5 < v then
        .error (rangeMsg (lo.getD 1) (hi.getD 5))
      else .ok [(q.key, .numA v)]
  | .scale lo hi, .numberVal v =>
      if v < lo.getD 1 ∨ hi.getD 5 < v then
        .error (rangeMsg (lo.getD 1) (hi.getD 5))
      else .ok [(q.key, .numA v)]
  | _, _ => .ok []

/-- `validateAndCollect` over the rendered fields of the current slide, in
order: the first failure is returned as-is (fail fast, never an aggregate
of failures); on success the collected updates are returned in order. -/
def validateAndCollect :
    List (Question × FieldInput) → Except String (List (String × AnswerValue))
  | [] => .ok []
  | (q, inp) :: rest =>
      match validateField q inp with
      | .error m => .error m
      | .ok upd =>
          match validateAndCollect rest with
          | .error m => .error m
          | .ok more => .ok (upd ++ more)

/-- Slide-1 questions of the intake (Financial Snapshot). -/
def qIncome : Question := ⟨"income", .floatNumber (some 0) none⟩

/-- The expenses-by-category question of slide 1. -/
def qExpensesBreakdown : Question :=
  ⟨"expenses_breakdown", .categories
    ["Housing", "Groceries", "Utilities", "Transportation", "Miscellaneous"]⟩

/-- The savings question of slide 1. -/
def qSavings : Question := ⟨"savings", .floatNumber (some 0) none⟩

/-- The debt-type question of slide 1. -/
def qDebtSelect : Question :=
  ⟨"debt_type", .multipleChoice
    ["None", "Credit cards", "Student loans", "Car loans", "Other"]⟩

/-- The dependents question of slide 1. -/
def qDependents : Question := ⟨"dependents", .intNumber (some 0) none⟩

/-- The age question of slide 1. -/
def qAge : Question := ⟨"age", .intNumber (some 0) (some 120)⟩

/-- Valid category inputs used by the C9 concrete runs. -/
def catInputsOk : List (String × ℚ) :=
  [("Housing", 1200), ("Groceries", 400), ("Utilities", 150),
   ("Transportation", 120), ("Miscellaneous", 80)]

/-- Slide-1 fields where every field before "dependents" is valid and the
dependents input was left empty. -/
def fieldsMissingDependents : List (Question × FieldInput) :=
  [ (qIncome, .numberVal 3200),
    (qExpensesBreakdown, .catVals catInputsOk),
    (qSavings, .numberVal 8000),
    (qDebtSelect, .selection "None"),
    (qDependents, .emptyNumber),
    (qAge, .numberVal 30) ]

/-- Slide-1 fields where "dependents" is valid and the age input was left
empty. -/
def fieldsMissingAge : List (Question × FieldInput) :=
  [ (qIncome, .numberVal 3200),
    (qExpensesBreakdown, .catVals catInputsOk),
    (qSavings, .numberVal 8000),
    (qDebtSelect, .selection "None"),
    (qDependents, .numberVal 2),
    (qAge, .emptyNumber) ]

/-- The `analysisData.analysis` object consumed by the retirement track;
a `none` field models an absent (or JS-falsy) payload field. -/
structure AnalysisBody where
  portfolio : Option (List PortfolioHolding) := none
  asset_allocation : Option (List AllocationBucket) := none
deriving Repr, DecidableEq

/-- The rendered retirement-track result: which payload variant was
selected and its normalized items; `noData` carries no items, only the
fixed message. -/
inductive RetirementRender
  | narrated (cards : List PortfolioCard)
  | legacy (items : List LegacyRecItem)
  | noData (message : String)
deriving Repr, DecidableEq

/-- The fixed no-data narrative of the retirement track. -/
def noDataNarrative : String :=
  "No portfolio allocation available. Please refresh or check your connection."

/-- `renderRetirementInvestorContent` variant dispatch: the narrated
portfolio field wins, the legacy allocation is used only when the
portfolio field is absent, and the fixed no-data terminal state is
returned when both are absent — never an error. -/
def renderRetirementInvestorContent (analysis : Option AnalysisBody) :
    RetirementRender :=
  match analysis with
  | none => .noData noDataNarrative
  | some body =>
      match body.portfolio with
      | some portfolio => .narrated (normalizePortfolio portfolio)
      | none =>
          match body.asset_allocation with
          | some allocation => .legacy (collectLegacyRecs allocation)
          | none => .noData noDataNarrative

/-- Witness payload for C10: both the narrated `portfolio` field and the
legacy `asset_allocation` field are present. -/
def bodyW : AnalysisBody :=
  { portfolio := some portfolioW, asset_allocation := some [bucketC] }

/-! ## Theorems -/

/-- Rounding commutes with clamping to the integer bounds 1 and 10. -/
theorem jsRound_clampQ (x : ℚ) :
    jsRound (clampQ 1 10 x) = max 1 (min 10 (jsRound x)) := by
  unfold jsRound clampQ
  rcases le_or_lt x 1 with h1 | h1
  · have hmin : min 10 x = x := min_eq_right (h1.trans (by norm_num))
    have hmax : max 1 x = 1 := max_eq_left h1
    rw [hmin, hmax]
    have hf : ⌊x + 1/2⌋ ≤ 1 := by
      have h32 : ⌊(3/2 : ℚ)⌋ = 1 := by norm_num [Int.floor_eq_iff]
      have hm : ⌊x + 1/2⌋ ≤ ⌊(3/2 : ℚ)⌋ := Int.floor_le_floor (by linarith)
      omega
    have : min 10 ⌊x + 1/2⌋ = ⌊x + 1/2⌋ := min_eq_right (hf.trans (by norm_num))
    rw [this, max_eq_left hf]
    norm_num [Int.floor_eq_iff]
  · rcases le_or_lt x 10 with h10 | h10
    · have hmin : min 10 x = x := min_eq_right h10
      have hmax : max 1 x = x := max_eq_right h1.le
      rw [hmin, hmax]
      have hlo : 1 ≤ ⌊x + 1/2⌋ := by
        rw [Int.le_floor]; push_cast; linarith
      have hhi : ⌊x + 1/2⌋ ≤ 10 := by
        have : (x + 1/2 : ℚ) < 11 := by linarith
        have := Int.floor_lt.mpr (by push_cast; linarith : (x + 1/2 : ℚ) < ((11 : ℤ) : ℚ))
        omega
      rw [min_eq_right hhi, max_eq_right hlo]
    · have hmin : min 10 x = 10 := min_eq_left h10.le
      have hmax : max 1 (10 : ℚ) = 10 := by norm_num
      rw [hmin, hmax]
      have hlo : 10 ≤ ⌊x + 1/2⌋ := by
        rw [Int.le_floor]; push_cast; linarith
      rw [min_eq_left hlo, max_eq_right (by omega : (1 : ℤ) ≤ 10)]
      norm_num [Int.floor_eq_iff]

/-- Shared helper: bounds of the clamped score. -/
theorem computeRisk_score_ge_one (a : AnswerSet) : 1 ≤ (computeRisk a).score :=
  le_max_left 1 _

/-- Shared helper: the score never exceeds 10. -/
theorem computeRisk_score_le_ten (a : AnswerSet) : (computeRisk a).score ≤ 10 := by
  show max 1 (min 10 (jsRound (riskRaw a))) ≤ 10
  exact max_le (by norm_num) (min_le_left _ _)

/-- C1: for every AnswerSet (arbitrary finite numeric answers, including
negative incomes and ages), the `computeRisk` score is an integer with
`1 ≤ score ≤ 10`, and it equals `round(clamp(5 + Σ adjustments, 1, 10))`. -/
theorem computeRisk_score_bounds_and_round_clamp (a : AnswerSet) :
    1 ≤ (computeRisk a).score ∧ (computeRisk a).score ≤ 10 ∧
      (computeRisk a).score = jsRound (clampQ 1 10 (5 + riskAdjustments a)) := by
  refine ⟨computeRisk_score_ge_one a, computeRisk_score_le_ten a, ?_⟩
  show max 1 (min 10 (jsRound (riskRaw a))) = _
  rw [jsRound_clampQ]
  rfl

/-- C2: on Scenario A, `computeRisk` yields risk score 7 with both income
threshold bonuses firing cumulatively, investable monthly 2000, and a
suggested cap of 1100 (cap 0.55 at score 7). -/
theorem computeRisk_scenarioA :
    (computeRisk answersA).score = 7 ∧
      (computeRisk answersA).investableMonthly = 2000 ∧
      (computeRisk answersA).suggestedCap = 1100 ∧
      num answersA.total_expenses * 1.25 < num answersA.income ∧
      num answersA.total_expenses * 1.5 < num answersA.income ∧
      riskRaw answersA = 7 := by
  norm_num [computeRisk, investableOf, runwayOf, runwayDenom, riskRaw,
    riskAdjustments, num, answersA, jsRound, capFor, Int.floor_eq_iff]

/-- C3: with expenses equal to 0 (or the key absent), the runway
denominator is floored at 1, the runway is exactly `savings` (finite, no
division by zero), and the outputs of `computeRisk` are well-defined
rationals with the score still clamped into `[1, 10]`. -/
theorem computeRisk_zero_expenses (a : AnswerSet)
    (h : a.total_expenses = some 0 ∨ a.total_expenses = none) :
    runwayDenom (num a.total_expenses) = 1 ∧
      runwayOf a = num a.savings ∧
      (0 : ℚ) < runwayDenom (num a.total_expenses) ∧
      1 ≤ (computeRisk a).score ∧ (computeRisk a).score ≤ 10 ∧
      (computeRisk a).investableMonthly = max 0 (num a.income) ∧
      (computeRisk a).suggestedCap
        = (computeRisk a).investableMonthly * capFor (computeRisk a).score := by
  have hz : num a.total_expenses = 0 := by
    rcases h with h | h <;> simp [num, h]
  have hden : runwayDenom (num a.total_expenses) = 1 := by
    simp [runwayDenom, hz]
  refine ⟨hden, ?_, by rw [hden]; norm_num,
    computeRisk_score_ge_one a, computeRisk_score_le_ten a, ?_, rfl⟩
  · rw [runwayOf, hden, div_one]
  · simp [computeRisk, investableOf, hz]

/-- Witness for C3 at concrete answers with zero expenses. -/
theorem computeRisk_zero_expenses_witness :
    runwayDenom (num answersZeroExp.total_expenses) = 1 ∧
      runwayOf answersZeroExp = num answersZeroExp.savings ∧
      (0 : ℚ) < runwayDenom (num answersZeroExp.total_expenses) ∧
      1 ≤ (computeRisk answersZeroExp).score ∧
      (computeRisk answersZeroExp).score ≤ 10 ∧
      (computeRisk answersZeroExp).investableMonthly
        = max 0 (num answersZeroExp.income) ∧
      (computeRisk answersZeroExp).suggestedCap
        = (computeRisk answersZeroExp).investableMonthly
            * capFor (computeRisk answersZeroExp).score :=
  computeRisk_zero_expenses answersZeroExp (Or.inl rfl)

/-- C4: `determineTraderType` is total over all AnswerSets and follows the
stated priority order: a recognized explicit trader-type answer wins
outright (1:1, with "Both" mapping to `both` whatever the goal is); absent
that, the recognized primary-goal answers map to their tracks; absent
both, the default is `retirement_investor` — never an error. -/
theorem determineTraderType_priority (a : AnswerSet) :
    (a.trader_type = some "Day Trader" →
        determineTraderType a = .day_trader) ∧
      (a.trader_type = some "Retirement Investor" →
        determineTraderType a = .retirement_investor) ∧
      (a.trader_type = some "Both" → determineTraderType a = .both) ∧
      (recognizedTraderAnswer a.trader_type = false →
        a.primary_goal = some "Short-term trading" →
        determineTraderType a = .day_trader) ∧
      (recognizedTraderAnswer a.trader_type = false →
        a.primary_goal = some "Retirement" →
        determineTraderType a = .retirement_investor) ∧
      (recognizedTraderAnswer a.trader_type = false →
        recognizedGoalAnswer a.primary_goal = false →
        determineTraderType a = .retirement_investor) := by
  refine ⟨?_, ?_, ?_, ?_, ?_, ?_⟩ <;> intro h
  · simp [determineTraderType, h]
  · simp [determineTraderType, h]
  · simp [determineTraderType, h]
  · intro hg
    simp only [recognizedTraderAnswer, Bool.or_eq_false_iff,
      decide_eq_false_iff_not] at h
    simp [determineTraderType, h.1.1, h.1.2, h.2, hg]
  · intro hg
    simp only [recognizedTraderAnswer, Bool.or_eq_false_iff,
      decide_eq_false_iff_not] at h
    simp [determineTraderType, h.1.1, h.1.2, h.2, hg]
  · intro hg
    simp only [recognizedTraderAnswer, Bool.or_eq_false_iff,
      decide_eq_false_iff_not] at h
    simp only [recognizedGoalAnswer, Bool.or_eq_false_iff,
      decide_eq_false_iff_not] at hg
    simp [determineTraderType, h.1.1, h.1.2, h.2, hg.1, hg.2]

/-- Witness for C4: the explicit "Both" answer classifies as `both` even
though the primary goal is "Retirement". -/
theorem determineTraderType_priority_witness :
    determineTraderType answersBoth = .both :=
  (determineTraderType_priority answersBoth).2.2.1 rfl

/-- C5 counterexample: with the `predictions` field present but the list
empty, the rendered output still contains the synthetic disclaimer card —
the claim's "appended when the prediction list is non-empty (and only
then)" fails on the empty list. -/
theorem renderDayTrader_empty_disclaimer_cex :
    renderDayTraderCards noProvider (some ([] : List Prediction))
      = [DayCard.disclaimer] := by
  simp [renderDayTraderCards]

/-- C5 (amended): each prediction maps 1:1 in input order to a signal card
carrying its ticker, action, and confidence, with (no enrichment
available) the fallback "<ACTION> signal based on ML analysis" rationale
followed by the static per-action clause; one synthetic disclaimer card is
appended whenever the `predictions` field is present — including when the
list is empty.  In particular Scenario D yields one sell card plus the
disclaimer. -/
theorem renderDayTrader_normalization (preds : List Prediction) :
    renderDayTraderCards noProvider (some preds)
      = preds.map (fun p =>
          DayCard.signal p.ticker p.action p.confidence
            (fallbackSignal p ++ " " ++ actionClause p.action))
        ++ [DayCard.disclaimer] ∧
      renderDayTraderCards noProvider (some [predictionD])
        = [DayCard.signal "AAPL" "sell" 70
            ("SELL signal based on ML analysis "
              ++ "Consider taking profits or reducing your position."),
           DayCard.disclaimer] := by
  constructor
  · simp [renderDayTraderCards, mkDayCard, dayRationale, explainFallback,
      noProvider]
  · simp [renderDayTraderCards, mkDayCard, dayRationale, explainFallback,
      noProvider, predictionD, fallbackSignal, actionClause]
    decide

/-- C6: each bucket of the legacy flat-allocation payload is normalized to
one item per recommendation string, in input order, each carrying the
evenly split percentage `percentage / length` and the symbol parsed as the
leading token with parentheses stripped; on the Scenario C bucket this
yields exactly the two items VTI and VXUS at 30 each. -/
theorem normalizeBucket_even_split (b : AllocationBucket) :
    (normalizeBucket b).length = b.recommendations.length ∧
      (∀ i (hi : i < (normalizeBucket b).length)
          (hr : i < b.recommendations.length),
        ((normalizeBucket b).get ⟨i, hi⟩).percentage
            = b.percentage / (b.recommendations.length : ℚ) ∧
          ((normalizeBucket b).get ⟨i, hi⟩).ticker
            = extractTicker (b.recommendations.get ⟨i, hr⟩) ∧
          ((normalizeBucket b).get ⟨i, hi⟩).name
            = b.recommendations.get ⟨i, hr⟩) ∧
      normalizeBucket bucketC
        = [{ ticker := "VTI", name := "VTI (Total Market)",
             assetClass := "stocks", percentage := 30 },
           { ticker := "VXUS", name := "VXUS (Intl)",
             assetClass := "stocks", percentage := 30 }] := by
  refine ⟨by simp [normalizeBucket], ?_, ?_⟩
  · intro i hi hr
    simp [normalizeBucket, List.get_eq_getElem, List.getElem_map]
  · have h1 : extractTicker "VTI (Total Market)" = "VTI" := by decide
    have h2 : extractTicker "VXUS (Intl)" = "VXUS" := by decide
    simp [normalizeBucket, bucketC, h1, h2]
    norm_num

/-- Witness for C6 at the Scenario C bucket, first item. -/
theorem normalizeBucket_even_split_witness :
    ((normalizeBucket bucketC).get ⟨0, by decide⟩).percentage
        = bucketC.percentage / (bucketC.recommendations.length : ℚ) ∧
      ((normalizeBucket bucketC).get ⟨0, by decide⟩).ticker
        = extractTicker (bucketC.recommendations.get ⟨0, by decide⟩) ∧
      ((normalizeBucket bucketC).get ⟨0, by decide⟩).name
        = bucketC.recommendations.get ⟨0, by decide⟩ :=
  (normalizeBucket_even_split bucketC).2.1 0 (by decide) (by decide)

/-- C7: normalizing a narrated portfolio yields one card per holding in
input order with `percent = weight * 100`; when the weights sum to 1 the
percentages sum to exactly 100, in particular within the ±0.1 tolerance. -/
theorem normalizePortfolio_sum_100 (portfolio : List PortfolioHolding)
    (h : (portfolio.map (fun x => x.weight)).sum = 1) :
    (normalizePortfolio portfolio).length = portfolio.length ∧
      (∀ i (hi : i < (normalizePortfolio portfolio).length)
          (hp : i < portfolio.length),
        ((normalizePortfolio portfolio).get ⟨i, hi⟩).percent
            = (portfolio.get ⟨i, hp⟩).weight * 100 ∧
          ((normalizePortfolio portfolio).get ⟨i, hi⟩).asset
            = (portfolio.get ⟨i, hp⟩).asset) ∧
      ((normalizePortfolio portfolio).map (fun c => c.percent)).sum = 100 ∧
      |((normalizePortfolio portfolio).map (fun c => c.percent)).sum - 100|
        ≤ 1/10 := by
  have hsum :
      ((normalizePortfolio portfolio).map (fun c => c.percent)).sum = 100 := by
    have hmap :
        (normalizePortfolio portfolio).map (fun c => c.percent)
          = portfolio.map (fun x => x.weight * 100) := by
      simp [normalizePortfolio, List.map_map, Function.comp]
    rw [hmap, List.sum_map_mul_right, h, one_mul]
  refine ⟨by simp [normalizePortfolio], ?_, hsum, by rw [hsum]; norm_num⟩
  intro i hi hp
  simp [normalizePortfolio, List.get_eq_getElem, List.getElem_map]

/-- Witness for C7 at a concrete two-holding portfolio with weights
summing to 1. -/
theorem normalizePortfolio_sum_100_witness :
    ((normalizePortfolio portfolioW).map (fun c => c.percent)).sum = 100 :=
  (normalizePortfolio_sum_100 portfolioW (by norm_num [portfolioW])).2.2.1

/-- Shared helper: settling preserves the slot-array length. -/
theorem settleSlots_length (res : ℕ → String) (order : List ℕ) (n : ℕ) :
    (settleSlots res order n).length = n := by
  suffices h : ∀ (o : List ℕ) (init : List (Option String)),
      (o.foldl (fun acc i => acc.set i (some (res i))) init).length
        = init.length by
    simpa [settleSlots] using h order (List.replicate n none)
  intro o
  induction o with
  | nil => intro init; rfl
  | cons head tail ih => intro init; simpa using ih (init.set head (some (res head)))

/-- Shared helper: a slot whose task is not in the schedule keeps its
initial value. -/
theorem settleSlots_foldl_not_mem (res : ℕ → String) :
    ∀ (order : List ℕ) (init : List (Option String)) (i : ℕ), i ∉ order →
      (order.foldl (fun acc j => acc.set j (some (res j))) init)[i]?
        = init[i]? := by
  intro order
  induction order with
  | nil => intro init i _; rfl
  | cons o os ih =>
      intro init i hi
      have hne : o ≠ i := fun h => hi (h ▸ List.mem_cons_self o os)
      have hnot : i ∉ os := fun h => hi (List.mem_cons_of_mem o h)
      calc ((o :: os).foldl (fun acc j => acc.set j (some (res j))) init)[i]?
          = (os.foldl (fun acc j => acc.set j (some (res j)))
              (init.set o (some (res o))))[i]? := rfl
        _ = (init.set o (some (res o)))[i]? := ih _ i hnot
        _ = init[i]? := List.getElem?_set_ne hne

/-- Shared helper: a slot whose task is scheduled ends at its settled
result, whatever the completion order. -/
theorem settleSlots_foldl_mem (res : ℕ → String) :
    ∀ (order : List ℕ) (init : List (Option String)) (i : ℕ), i ∈ order →
      i < init.length →
      (order.foldl (fun acc j => acc.set j (some (res j))) init)[i]?
        = some (some (res i)) := by
  intro order
  induction order with
  | nil => intro init i hi; exact absurd hi (List.not_mem_nil i)
  | cons o os ih =>
      intro init i hi hlen
      by_cases hmem : i ∈ os
      · calc ((o :: os).foldl (fun acc j => acc.set j (some (res j))) init)[i]?
            = (os.foldl (fun acc j => acc.set j (some (res j)))
                (init.set o (some (res o))))[i]? := rfl
          _ = some (some (res i)) := ih _ i hmem (by simpa using hlen)
      · have heq : i = o := by
          rcases List.mem_cons.mp hi with h | h
          · exact h
          · exact absurd h hmem
        subst heq
        calc ((i :: os).foldl (fun acc j => acc.set j (some (res j))) init)[i]?
            = (os.foldl (fun acc j => acc.set j (some (res j)))
                (init.set i (some (res i))))[i]? := rfl
          _ = (init.set i (some (res i)))[i]? :=
              settleSlots_foldl_not_mem res os _ i hmem
          _ = some (some (res i)) := List.getElem?_set_self hlen

/-- Shared helper: whenever the completion order is a permutation of the
task indices, the joined list equals the results in input order. -/
theorem promiseAll_perm (res : ℕ → String) (order : List ℕ) (n : ℕ)
    (h : order.Perm (List.range n)) :
    promiseAll res order n = (List.range n).map res := by
  apply List.ext_getElem?
  intro i
  by_cases hi : i < n
  · have hmem : i ∈ order := h.mem_iff.mpr (List.mem_range.mpr hi)
    have hslot :
        (settleSlots res order n)[i]? = some (some (res i)) := by
      unfold settleSlots
      exact settleSlots_foldl_mem res order (List.replicate n none) i hmem
        (by simpa using hi)
    rw [promiseAll, List.getElem?_map, hslot, List.getElem?_map,
      List.getElem?_range hi]
    rfl
  · have h1 : (promiseAll res order n)[i]? = none := by
      apply List.getElem?_eq_none
      simp [promiseAll, settleSlots_length]
      omega
    have h2 : ((List.range n).map res)[i]? = none := by
      apply List.getElem?_eq_none
      simp
      omega
    rw [h1, h2]

/-- Shared helper: zipping the batch with its input-order explanation list
is the per-prediction map. -/
theorem zipWith_predExplanation (provider : Prediction → Option String) :
    ∀ preds : List Prediction,
      List.zipWith (fun p e => mkDayCard e p) preds
          ((List.range preds.length).map (predExplanation provider preds))
        = preds.map (fun p => mkDayCard (explainFallback (provider p)) p) := by
  intro preds
  induction preds with
  | nil => rfl
  | cons p ps ih =>
      rw [List.length_cons, List.range_succ_eq_map, List.map_cons,
        List.zipWith_cons_cons, List.map_map]
      have h0 : predExplanation provider (p :: ps) 0
          = explainFallback (provider p) := rfl
      have hsucc : (predExplanation provider (p :: ps)) ∘ Nat.succ
          = predExplanation provider ps := by
        funext i
        rfl
      rw [h0, hsucc, ih, List.map_cons]

/-- C8: with the concurrent enrichment modelled explicitly, for every
completion order that settles each per-item call exactly once, the
assembled card list equals the one produced in input order: every
prediction of the batch yields its card (none is dropped), input order is
preserved regardless of completion order, items whose provider call
failed carry the synthesized fallback rationale, and no failure surfaces
as an error (the result is always a plain card list). -/
theorem renderDayTrader_settleAll (provider : Prediction → Option String)
    (preds : List Prediction) (order : List ℕ)
    (h : order.Perm (List.range preds.length)) :
    renderDayTraderScheduled provider preds order
        = renderDayTraderCards provider (some preds) ∧
      renderDayTraderScheduled provider preds order
        = preds.map (fun p => mkDayCard (explainFallback (provider p)) p)
            ++ [DayCard.disclaimer] ∧
      (∀ p : Prediction, provider p = none →
        mkDayCard (explainFallback (provider p)) p
          = DayCard.signal p.ticker p.action p.confidence
              (fallbackSignal p ++ " " ++ actionClause p.action)) := by
  have hmain : renderDayTraderScheduled provider preds order
      = preds.map (fun p => mkDayCard (explainFallback (provider p)) p)
        ++ [DayCard.disclaimer] := by
    rw [renderDayTraderScheduled, promiseAll_perm _ _ _ h,
      zipWith_predExplanation]
  refine ⟨by rw [hmain]; rfl, hmain, ?_⟩
  intro p hp
  simp [mkDayCard, dayRationale, explainFallback, hp]

/-- Witness for C8: a two-item batch settled in reversed completion order,
with the provider failing on the second item, assembles to the canonical
input-order card list. -/
theorem renderDayTrader_settleAll_witness :
    renderDayTraderScheduled flakyProvider predsW [1, 0]
      = renderDayTraderCards flakyProvider (some predsW) :=
  (renderDayTrader_settleAll flakyProvider predsW [1, 0] (by decide)).1

/-- Shared helper: with no negative entries, the category loop collects
the entered map unchanged. -/
theorem collectCategories_ok_of_nonneg (vals : List (String × ℚ))
    (h : ∀ cv ∈ vals, 0 ≤ cv.2) : collectCategories vals = .ok vals := by
  induction vals with
  | nil => rfl
  | cons cv rest ih =>
      obtain ⟨c, v⟩ := cv
      have hcv : (0 : ℚ) ≤ v := h (c, v) (List.mem_cons_self _ _)
      have hrest : ∀ x ∈ rest, (0 : ℚ) ≤ x.2 :=
        fun x hx => h x (List.mem_cons_of_mem _ hx)
      simp only [collectCategories]
      rw [if_neg (not_lt.mpr hcv), ih hrest]

/-- Shared helper: a negative entry makes the loop fail with the
negative-value message (the first one encountered). -/
theorem collectCategories_error_of_neg (vals : List (String × ℚ))
    (h : ∃ cv ∈ vals, cv.2 < 0) :
    collectCategories vals = .error "Values can’t be negative." := by
  induction vals with
  | nil =>
      obtain ⟨cv, hcv, _⟩ := h
      exact absurd hcv (List.not_mem_nil cv)
  | cons cv rest ih =>
      obtain ⟨c, v⟩ := cv
      by_cases hv : v < 0
      · simp only [collectCategories]
        rw [if_pos hv]
      · obtain ⟨x, hx, hxneg⟩ := h
        rcases List.mem_cons.mp hx with heq | hmem
        · refine absurd hxneg ?_
          rw [heq]
          exact hv
        · simp only [collectCategories]
          rw [if_neg hv, ih ⟨x, hmem, hxneg⟩]

/-- C9 (amended): slide validation checks the rendered fields in order and
returns either success or the single first-encountered failure with a
human-readable reason — never an aggregate — but the failure value does
not identify the offending key (see the counterexample); a category-map
answer is accepted exactly when it has no negative entry and at least one
strictly positive entry; and on success a synthesized `total_expenses`
equal to the sum of the category values is inserted into the collected
answers. -/
theorem validateAndCollect_first_failure (q : Question) (inp : FieldInput)
    (rest : List (Question × FieldInput)) (m : String)
    (vals : List (String × ℚ)) (key : String) (cats : List String) :
    (validateField q inp = .error m →
        validateAndCollect ((q, inp) :: rest) = .error m) ∧
      ((∀ cv ∈ vals, 0 ≤ cv.2) → (∃ cv ∈ vals, 0 < cv.2) →
        validateCategories vals
          = .ok (vals, (vals.map (fun cv => cv.2)).sum)) ∧
      ((∃ cv ∈ vals, cv.2 < 0) →
        validateCategories vals = .error "Values can’t be negative.") ∧
      ((∀ cv ∈ vals, cv.2 = 0) →
        validateCategories vals
          = .error "Enter at least one category amount.") ∧
      (∀ obj total, validateCategories vals = .ok (obj, total) →
        validateField ⟨key, .categories cats⟩ (.catVals vals)
          = .ok [(key, .catA obj), ("total_expenses", .numA total)]) := by
  refine ⟨?_, ?_, ?_, ?_, ?_⟩
  · intro h
    simp only [validateAndCollect]
    rw [h]
  · intro hnn hpos
    obtain ⟨cv, hm, hcv⟩ := hpos
    have hany : vals.any (fun cv => decide (cv.2 ≠ 0)) = true :=
      List.any_eq_true.mpr ⟨cv, hm, decide_eq_true hcv.ne'⟩
    rw [validateCategories, collectCategories_ok_of_nonneg vals hnn]
    simp [hany]
    obtain ⟨c0, v0⟩ := cv
    exact ⟨c0, v0, hm, hcv.ne'⟩
  · intro h
    rw [validateCategories, collectCategories_error_of_neg vals h]
  · intro h
    have hok := collectCategories_ok_of_nonneg vals
      (fun cv hcv => le_of_eq (h cv hcv).symm)
    have hany : vals.any (fun cv => decide (cv.2 ≠ 0)) = false := by
      rw [List.any_eq_false]
      intro cv hcv
      simpa using h cv hcv
    rw [validateCategories, hok]
    simp [hany]
    intro x y hxy
    exact h (x, y) hxy
  · intro obj total h
    simp only [validateField]
    rw [h]

/-- Witness for C9: a one-field slide whose single question fails
validation returns exactly that failure. -/
theorem validateAndCollect_first_failure_witness :
    validateAndCollect [(qAge, FieldInput.emptyNumber)]
      = .error "This field is required." :=
  (validateAndCollect_first_failure qAge .emptyNumber [] "This field is required."
    [] "" []).1 rfl

/-- C9 counterexample: two slide-1 runs failing at different questions
("dependents" left empty vs "age" left empty) return the identical
failure value — one that also contains neither key — so the returned
first-encountered failure does not identify the offending key. -/
theorem validateAndCollect_no_key_cex :
    validateAndCollect fieldsMissingDependents
        = .error "This field is required." ∧
      validateAndCollect fieldsMissingAge
        = .error "This field is required." ∧
      ¬ List.IsInfix "dependents".data "This field is required.".data ∧
      ¬ List.IsInfix "age".data "This field is required.".data := by
  refine ⟨?_, ?_, by decide, by decide⟩
  · norm_num [validateAndCollect, fieldsMissingDependents, validateField,
      validateCategories, collectCategories, catInputsOk, qIncome,
      qExpensesBreakdown, qSavings, qDebtSelect, qDependents, qAge,
      belowMin, aboveMax]
    rw [if_neg (show ¬ ("None" = "") from by decide)]
  · norm_num [validateAndCollect, fieldsMissingAge, validateField,
      validateCategories, collectCategories, catInputsOk, qIncome,
      qExpensesBreakdown, qSavings, qDebtSelect, qDependents, qAge,
      belowMin, aboveMax]
    rw [if_neg (show ¬ ("None" = "") from by decide)]

/-- C10: retirement-track payload-variant detection has the fixed
precedence: a present narrated `portfolio` field wins even when the legacy
`asset_allocation` field is also present; the legacy variant is used only
when the portfolio field is absent; and with neither field present the
result is the fixed no-data terminal state (no items), never an error. -/
theorem renderRetirement_dispatch (body : AnalysisBody) :
    (∀ portfolio, body.portfolio = some portfolio →
        renderRetirementInvestorContent (some body)
          = .narrated (normalizePortfolio portfolio)) ∧
      (∀ allocation, body.portfolio = none →
        body.asset_allocation = some allocation →
        renderRetirementInvestorContent (some body)
          = .legacy (collectLegacyRecs allocation)) ∧
      (body.portfolio = none → body.asset_allocation = none →
        renderRetirementInvestorContent (some body)
          = .noData noDataNarrative) ∧
      renderRetirementInvestorContent none = .noData noDataNarrative := by
  refine ⟨?_, ?_, ?_, rfl⟩
  · intro portfolio hp
    simp [renderRetirementInvestorContent, hp]
  · intro allocation hp ha
    simp [renderRetirementInvestorContent, hp, ha]
  · intro hp ha
    simp [renderRetirementInvestorContent, hp, ha]

/-- Witness for C10: a payload carrying both fields renders as the
narrated-portfolio variant. -/
theorem renderRetirement_dispatch_witness :
    renderRetirementInvestorContent (some bodyW)
      = .narrated (normalizePortfolio portfolioW) :=
  (renderRetirement_dispatch bodyW).1 portfolioW rfl
